import Mathlib

/-!
Verification of the chisel-bootcamp notebook test harness.

The repository has two Python scripts:

* `runtest.py` — an expectation-checked batch runner: a static catalog
  (`notebooks`) maps notebook file names to ordered lists of expected error
  signatures; each requested notebook is executed into a scratch copy
  (`_notebook_run`), the error outputs of its cells are collected, and
  `check_errors` compares them positionally (sentinel padding, 100-character
  truncation, substring matching) against the catalog entry.
* `run_notebook.py` — a single-notebook executor that shells out to the
  execution service and maps its success/failure to exit codes.

This file gives a shallow embedding of that logic and settles the claims
made about it.  Strings are Lean `String`s; Python's `e in a` substring test
and `s[:100]` slicing are embedded character-exactly below.
-/

namespace ChiselBootcamp

/-- Embedding of list-of-characters prefix testing: `charsMatchAt e a` is true
when `e` occurs at the very start of `a` (used to build the substring test). -/
def charsMatchAt : List Char → List Char → Bool
  | [], _ => true
  | _ :: _, [] => false
  | c :: cs, d :: ds => c = d && charsMatchAt cs ds

/-- `charsContain e a` is true when `e` occurs contiguously somewhere inside
`a`; this is exactly Python's `e in a` on strings, character by character
(in particular the empty list occurs in everything). -/
def charsContain (e : List Char) : List Char → Bool
  | [] => charsMatchAt e []
  | c :: cs => charsMatchAt e (c :: cs) || charsContain e cs

/-- Python's substring test `e in a` for strings. -/
def strContains (a e : String) : Bool :=
  charsContain e.toList a.toList

/-- Python's slice `s[:n]`: the first `n` characters (code points) of `s`. -/
def strTake (s : String) (n : Nat) : String :=
  String.mk (s.toList.take n)

/-- An error output of an executed notebook cell, as read back from the
executed document: `x['traceback']` is a non-empty ordered list of traceback
lines, represented here as its first line plus the remaining lines. -/
structure ErrorOutput where
  tracebackFirst : String
  tracebackRest : List String
deriving DecidableEq

/-- `x['traceback'][0]`: the first traceback line of an error output. -/
def firstTracebackLine (x : ErrorOutput) : String :=
  x.tracebackFirst

/-- One diagnostic line printed to stderr by `check_errors` for a mismatched
position: the index, the expected signature and the (re-truncated) actual
signature of the failing comparison. -/
structure Diag where
  idx : Nat
  expectedSig : String
  gotSig : String
deriving DecidableEq

/-- The padding value `"-- No Error --"` used by `itertools.zip_longest` in
`check_errors`. -/
def sentinel : String := "-- No Error --"

/-- Pairs the fill value with every remaining entry of a list (the tail of
`zip_longest` once the first list has run out). -/
def padLeftover (fill : String) : List String → List (String × String)
  | [] => []
  | a :: as2 => (fill, a) :: padLeftover fill as2

/-- `itertools.zip_longest(es, as, fillvalue=fill)`: walk both lists in
parallel, padding whichever list runs out first with `fill`. -/
def zipLongestFill (fill : String) : List String → List String → List (String × String)
  | [], as2 => padLeftover fill as2
  | e :: es, [] => (e, fill) :: zipLongestFill fill es []
  | e :: es, a :: as2 => (e, a) :: zipLongestFill fill es as2

/-- The `for i, (e, a) in enumerate(...)` loop of `check_errors`, starting at
index `i`: the first component is the final `return_value` (true only when
every pair matched), the second collects the diagnostic printed for each
mismatched pair, in loop order. -/
def checkErrorsLoop : Nat → List (String × String) → Bool × List Diag
  | _, [] => (true, [])
  | i, (e, a) :: rest =>
    let s := checkErrorsLoop (i + 1) rest
    if strContains a e then s
    else (false, ⟨i, e, strTake a 100⟩ :: s.2)

/-- The padded pair list `check_errors` walks:
`zip_longest(expected, actual_tracebacks, fillvalue="-- No Error --")` where
`actual_tracebacks = [str(x['traceback'][0][:100]) for x in actual]`. -/
def checkPairs (expected : List String) (actual : List ErrorOutput) : List (String × String) :=
  zipLongestFill sentinel expected
    (actual.map (fun x => strTake (firstTracebackLine x) 100))

/-- `check_errors(file_name, expected, actual)` from `runtest.py`: returns the
boolean result together with the diagnostics printed to stderr for the
mismatched positions (the `file_name` argument only appears in the printed
header and does not influence the result). -/
def checkErrors (fileName : String) (expected : List String) (actual : List ErrorOutput) :
    Bool × List Diag :=
  checkErrorsLoop 0 (checkPairs expected actual)

/-- The compiled-in expectation catalog `notebooks` of `runtest.py`: notebook
file name to ordered list of expected error signatures, in source order
(Python dicts preserve insertion order). `['x'] * k` is written with
`List.replicate` and `+` between the sub-lists as `++`. -/
def notebooks : List (String × List String) := [
  ("1_intro_to_scala.ipynb", []),
  ("2.1_first_module.ipynb", ["chisel3.internal.ChiselException: Exception thrown when elaborating ChiselGeneratorAnnotation"]),
  ("2.2_comb_logic.ipynb", ["Compilation Failed"] ++
    ["chisel3.internal.ChiselException: Exception thrown when elaborating ChiselGeneratorAnnotation"] ++
    ["chisel3.internal.ChiselException: Exception thrown when elaborating ChiselGeneratorAnnotation"] ++
    ["chisel3.internal.ChiselException: Exception thrown when elaborating ChiselGeneratorAnnotation"]),
  ("2.3_control_flow.ipynb", List.replicate 2 "scala.NotImplementedError" ++
    ["Compilation Failed"] ++
    ["scala.NotImplementedError"] ++
    ["Compilation Failed"]),
  ("2.4_sequential_logic.ipynb", List.replicate 2 "chisel3.internal.ChiselException: Exception thrown when elaborating ChiselGeneratorAnnotation"),
  ("2.5_exercise.ipynb", List.replicate 3 "chisel3.internal.ChiselException: Exception thrown when elaborating ChiselGeneratorAnnotation" ++
    ["Compilation Failed"]),
  ("2.6_chiseltest.ipynb", []),
  ("3.1_parameters.ipynb", ["java.util.NoSuchElementException"]),
  ("3.2_collections.ipynb", ["chisel3.internal.ChiselException: Exception thrown when elaborating ChiselGeneratorAnnotation"]),
  ("3.2_interlude.ipynb", []),
  ("3.3_higher-order_functions.ipynb", ["scala.NotImplementedError"] ++
    ["java.lang.UnsupportedOperationException"] ++
    List.replicate 2 "scala.NotImplementedError" ++
    ["chisel3.internal.ChiselException: Exception thrown when elaborating ChiselGeneratorAnnotation"]),
  ("3.4_functional_programming.ipynb", ["scala.NotImplementedError"] ++
    ["Compilation Failed"] ++
    ["scala.NotImplementedError"] ++
    ["Compilation Failed"]),
  ("3.5_object_oriented_programming.ipynb", ["Compilation Failed"]),
  ("3.6_types.ipynb", ["chisel3.internal.ChiselException: Connection between sink"] ++
    ["Failed to elaborate Chisel circuit"] ++
    ["expected \")\""] ++
    ["scala.MatchError: ChiselExecutionFailure"] ++
    List.replicate 5 "Compilation Failed"),
  ("4.1_firrtl_ast.ipynb", []),
  ("4.2_firrtl_ast_traversal.ipynb", []),
  ("4.3_firrtl_common_idioms.ipynb", []),
  ("4.4_firrtl_add_ops_per_module.ipynb", ["FirrtlInternalException"])]

/-- `notebooks[n]` as a safe lookup: `some` of the expected signature list
when `n` is a catalog key, `none` (a Python `KeyError`) otherwise. -/
def lookupCatalog (n : String) : Option (List String) :=
  (notebooks.find? (fun p => p.1 == n)).map (fun p => p.2)

/-- `sorted(notebooks)`: the catalog keys in lexicographic order. -/
def sortedNotebookKeys : List String :=
  List.insertionSort (fun a b : String => a ≤ b) (notebooks.map (fun p => p.1))

/-- The `notebooks_to_run` resolution of the batch runner's `__main__` block,
applied to `sys.argv[1:]`: no arguments means the whole catalog sorted by
name; a leading `--help` prints usage and exits 0 without running anything
(modelled as the empty run list); otherwise exactly the given arguments, in
order. -/
def notebooksToRun : List String → List String
  | [] => sortedNotebookKeys
  | arg :: rest => if arg = "--help" then [] else arg :: rest

/-- Outcome of one `_notebook_run` invocation as the batch runner sees it:
either the execution service (or read-back) raised, or it returned the listed
error outputs. -/
inductive ExecOutcome where
  | raises
  | runs (errors : List ErrorOutput)

/-- Observable side effects of the batch loop; `exec n` records that
`_notebook_run(n)` was invoked for notebook `n` (which is what creates the
scratch file and calls the execution service). -/
inductive Event where
  | exec (n : String)
deriving DecidableEq

/-- How the batch runner's `__main__` loop terminates: all notebooks passed,
a `KeyError` on `notebooks[n]`, an exception escaping `_notebook_run`, or an
`AssertionError` from `assert check_errors(...)` (carrying the diagnostics
`check_errors` printed for that notebook). -/
inductive BatchOutcome where
  | passed
  | keyError (n : String)
  | execError (n : String)
  | assertFailed (n : String) (diags : List Diag)
deriving DecidableEq

/-- The `for n in notebooks_to_run` loop of `runtest.py`: for each name,
look up the catalog (a miss raises `KeyError` before `_notebook_run` is
called), invoke `_notebook_run`, and `assert check_errors(...)`; the first
failure of any kind aborts the loop. Returns the trace of executions together
with the final outcome. -/
def batchRun (env : String → ExecOutcome) : List String → List Event × BatchOutcome
  | [] => ([], BatchOutcome.passed)
  | n :: rest =>
    match lookupCatalog n with
    | none => ([], BatchOutcome.keyError n)
    | some expected =>
      match env n with
      | ExecOutcome.raises => ([Event.exec n], BatchOutcome.execError n)
      | ExecOutcome.runs errs =>
        let c := checkErrors n expected errs
        if c.1 then
          let t := batchRun env rest
          (Event.exec n :: t.1, t.2)
        else ([Event.exec n], BatchOutcome.assertFailed n c.2)

/-- Abstract state of the process as `_notebook_run` sees it: the current
working directory and the set of files on disk (as a list of paths). -/
structure SysState where
  cwd : String
  files : List String
deriving DecidableEq

/-- A cell output of an executed notebook: either an error output (kind
`"error"`, carrying the traceback) or an output of any other kind. -/
inductive CellOutput where
  | error (err : ErrorOutput)
  | nonError (kind : String)
deriving DecidableEq

/-- A cell of an executed notebook document; `outputs = none` models a cell
with no `"outputs"` key at all. -/
structure Cell where
  outputs : Option (List CellOutput)
deriving DecidableEq

/-- Selects the error payload of an output when its kind is `"error"`. -/
def outputError : CellOutput → Option ErrorOutput
  | CellOutput.error e => some e
  | CellOutput.nonError _ => none

/-- The comprehension of `_notebook_run`:
`[output for cell in nb.cells if "outputs" in cell for output in cell["outputs"] if output.output_type == "error"]`. -/
def collectErrors (cells : List Cell) : List ErrorOutput :=
  (cells.map (fun c => (c.outputs.getD []).filterMap outputError)).flatten

/-- `os.path.split(p)`: directory part (before the last slash) and base
name (after it); no slash at all gives an empty directory part. -/
def pathSplit (p : String) : String × String :=
  let r := p.toList.reverse
  let base := (r.takeWhile (fun c => c ≠ '/')).reverse
  let dir := ((r.dropWhile (fun c => c ≠ '/')).drop 1).reverse
  (String.mk dir, String.mk base)

/-- Exceptions that can escape the `try` block of `_notebook_run`:
`subprocess.check_call` reporting a failed execution-service invocation, or
`nbformat.read` failing on the written document. -/
inductive RunFailure where
  | execFailed
  | readFailed
deriving DecidableEq

/-- The environment one `_notebook_run` call interacts with: the fresh path
`tempfile.mkstemp` picks, whether the execution-service subprocess raises,
whether reading the executed document raises, and the parsed document when
both succeed. -/
structure NbEnv where
  tempName : String
  execFails : Bool
  readFails : Bool
  nbResult : List Cell

/-- `_notebook_run(path)` from `runtest.py` as a state transformer: chdir
into the notebook's directory when it has one, create the scratch file,
run the execution service and read the result inside a `try` block, and in
the `finally` block unlink the scratch file (swallowing `OSError`) and chdir
back to the original directory. Returns the Python result or the escaped
exception, together with the final process state. -/
def notebookRun (path : String) (env : NbEnv) (s : SysState) :
    Except RunFailure (List Cell × List ErrorOutput) × SysState :=
  let dirname := (pathSplit path).1
  let originalDir := s.cwd
  let s1 : SysState := if dirname.length > 0 then ⟨dirname, s.files⟩ else s
  let s2 : SysState := ⟨s1.cwd, env.tempName :: s1.files⟩
  let body : Except RunFailure (List Cell × List ErrorOutput) :=
    if env.execFails then Except.error RunFailure.execFailed
    else if env.readFails then Except.error RunFailure.readFailed
    else Except.ok (env.nbResult, collectErrors env.nbResult)
  let s3 : SysState := ⟨s2.cwd, s2.files.filter (fun g => g ≠ env.tempName)⟩
  let s4 : SysState := ⟨originalDir, s3.files⟩
  (body, s4)

/-- The observable outcome of `run_notebook.py`: the process exit code,
whether the execution service was invoked, and whether the usage message was
printed. -/
structure ExecutorOutcome where
  exitCode : Nat
  attempted : Bool
  usagePrinted : Bool
deriving DecidableEq

/-- The `__main__` block of `run_notebook.py`, applied to `sys.argv[1:]` and
to the execution service `svc` (`svc nb = true` when the `nbconvert`
subprocess exits 0, which it does even when cells raised errors, because
`--allow-errors` is passed): no argument prints usage and exits 1 without
executing; otherwise the exit code reflects the service's success. -/
def runNotebookMain (args : List String) (svc : String → Bool) : ExecutorOutcome :=
  match args with
  | [] => ⟨1, false, true⟩
  | nb :: _ => if svc nb then ⟨0, true, false⟩ else ⟨1, true, false⟩

/-- The environment in which every notebook executes cleanly with no error
outputs, used to instantiate batch-runner claims. -/
def passEnv : String → ExecOutcome := fun _ => ExecOutcome.runs []

/-- The environment in which every notebook produces one error output whose
traceback line is `boom`, used to instantiate the fail-fast claim. -/
def failEnv : String → ExecOutcome := fun _ => ExecOutcome.runs [⟨"boom", []⟩]

theorem checkErrorsLoop_fst (ps : List (String × String)) :
    ∀ i, (checkErrorsLoop i ps).1 = ps.all (fun p => strContains p.2 p.1) := by
  induction ps with
  | nil => intro i; rfl
  | cons p rest ih =>
    intro i
    obtain ⟨e, a⟩ := p
    cases h : strContains a e with
    | true => simp [checkErrorsLoop, h, ih]
    | false => simp [checkErrorsLoop, h]

theorem checkErrors_fst (f : String) (E : List String) (A : List ErrorOutput) :
    (checkErrors f E A).1 = (checkPairs E A).all (fun p => strContains p.2 p.1) :=
  checkErrorsLoop_fst _ 0

theorem zipLongestFill_all_of_pointwise (fill : String) :
    ∀ (E A : List String), E.length = A.length →
    (∀ i (h1 : i < E.length) (h2 : i < A.length), strContains A[i] E[i] = true) →
    (zipLongestFill fill E A).all (fun p => strContains p.2 p.1) = true := by
  intro E
  induction E with
  | nil =>
    intro A hlen _
    cases A with
    | nil => rfl
    | cons a as2 => simp at hlen
  | cons e es ih =>
    intro A hlen hp
    cases A with
    | nil => simp at hlen
    | cons a as2 =>
      simp only [zipLongestFill, List.all_cons, Bool.and_eq_true]
      refine ⟨?_, ?_⟩
      · simpa using hp 0 (by simp) (by simp)
      · exact ih as2 (by simpa using hlen)
          (fun i h1 h2 => by simpa using hp (i + 1) (by simpa using h1) (by simpa using h2))

theorem zipLongestFill_exists_pad (fill : String) :
    ∀ (E A : List String), E.length ≠ A.length →
    ∃ p ∈ zipLongestFill fill E A, (p.1 = fill ∧ p.2 ∈ A) ∨ (p.2 = fill ∧ p.1 ∈ E) := by
  intro E
  induction E with
  | nil =>
    intro A hlen
    cases A with
    | nil => exact absurd rfl hlen
    | cons a as2 =>
      refine ⟨(fill, a), ?_, Or.inl ⟨rfl, by simp⟩⟩
      show (fill, a) ∈ (fill, a) :: padLeftover fill as2
      exact List.mem_cons_self _ _
  | cons e es ih =>
    intro A hlen
    cases A with
    | nil =>
      refine ⟨(e, fill), ?_, Or.inr ⟨rfl, by simp⟩⟩
      show (e, fill) ∈ (e, fill) :: zipLongestFill fill es []
      exact List.mem_cons_self _ _
    | cons a as2 =>
      have hne : es.length ≠ as2.length := by
        intro h
        exact hlen (by simp [h])
      rcases ih as2 hne with ⟨p, hmem, hcase⟩
      refine ⟨p, ?_, ?_⟩
      · show p ∈ (e, a) :: zipLongestFill fill es as2
        exact List.mem_cons_of_mem _ hmem
      · rcases hcase with ⟨h1, h2⟩ | ⟨h1, h2⟩
        · exact Or.inl ⟨h1, by simp [h2]⟩
        · exact Or.inr ⟨h1, by simp [h2]⟩

theorem checkErrorsLoop_mem_diag (ps : List (String × String)) :
    ∀ i j (hj : j < ps.length), strContains ps[j].2 ps[j].1 = false →
    Diag.mk (i + j) ps[j].1 (strTake ps[j].2 100) ∈ (checkErrorsLoop i ps).2 := by
  induction ps with
  | nil => intro i j hj; exact absurd hj (by simp)
  | cons p rest ih =>
    obtain ⟨e, a⟩ := p
    intro i j hj hfail
    cases j with
    | zero =>
      have hfa : strContains a e = false := hfail
      simp [checkErrorsLoop, hfa]
    | succ j2 =>
      have hj2 : j2 < rest.length := by simpa using hj
      have hfail2 : strContains rest[j2].2 rest[j2].1 = false := by
        simpa using hfail
      have hmem := ih (i + 1) j2 hj2 hfail2
      have harith : i + (j2 + 1) = (i + 1) + j2 := by omega
      cases hca : strContains a e with
      | true => simpa [checkErrorsLoop, hca, harith] using hmem
      | false =>
        simp only [checkErrorsLoop, hca, Bool.false_eq_true, if_false,
          List.getElem_cons_succ, harith]
        exact List.mem_cons_of_mem _ hmem

/-- Claim C1 (amended): when the expected list and the actual error list have
different lengths, `check_errors` returns false, provided no expected string
occurs inside the sentinel `"-- No Error --"` (ruling out expected strings
such as `""` or `"Error"`) and the sentinel does not occur inside any actual
signature's 100-character prefix: under those side conditions the padding
value fails to match at the first index where the shorter list ran out. -/
theorem claim_C1 (f : String) (expected : List String) (actual : List ErrorOutput)
    (hlen : expected.length ≠ actual.length)
    (hexp : ∀ e ∈ expected, strContains sentinel e = false)
    (hact : ∀ x ∈ actual, strContains (strTake (firstTracebackLine x) 100) sentinel = false) :
    (checkErrors f expected actual).1 = false := by
  rw [checkErrors_fst]
  have hlen2 : expected.length ≠
      (actual.map (fun x => strTake (firstTracebackLine x) 100)).length := by
    simpa using hlen
  rcases zipLongestFill_exists_pad sentinel expected _ hlen2 with ⟨p, hmem, hcase⟩
  have hfail : strContains p.2 p.1 = false := by
    rcases hcase with ⟨h1, h2⟩ | ⟨h1, h2⟩
    · rcases List.mem_map.mp h2 with ⟨x, hx, hx2⟩
      rw [h1, ← hx2]
      exact hact x hx
    · rw [h1]
      exact hexp p.1 h2
  cases hall : (checkPairs expected actual).all (fun p => strContains p.2 p.1) with
  | false => rfl
  | true =>
    exfalso
    have hmem2 : p ∈ checkPairs expected actual := hmem
    have htrue : strContains p.2 p.1 = true := List.all_eq_true.mp hall p hmem2
    rw [hfail] at htrue
    exact Bool.false_ne_true htrue

/-- Claim C1 as frozen is false on the code: with expected `["Error"]` and no
actual errors the lengths differ, yet `check_errors` returns true, because
`"Error"` is a substring of the sentinel padding value `"-- No Error --"`. -/
theorem claim_C1_cex :
    (["Error"] : List String).length ≠ ([] : List ErrorOutput).length ∧
    (checkErrors "t.ipynb" ["Error"] []).1 = true := by
  exact ⟨by decide, by decide⟩

/-- Witness for claim C1: a concrete length-mismatched pair satisfying the
side conditions, on which `check_errors` indeed returns false. -/
theorem claim_C1_witness : (checkErrors "t.ipynb" ["Compilation Failed"] []).1 = false :=
  claim_C1 "t.ipynb" ["Compilation Failed"] [] (by decide) (by decide) (by decide)

/-- Claim C2: for equal-length lists where each expected signature occurs
inside the first 100 characters of the corresponding actual error's first
traceback line, `check_errors` returns true. -/
theorem claim_C2 (f : String) (expected : List String) (actual : List ErrorOutput)
    (hlen : expected.length = actual.length)
    (hmatch : ∀ i (h1 : i < expected.length) (h2 : i < actual.length),
      strContains (strTake (firstTracebackLine actual[i]) 100) expected[i] = true) :
    (checkErrors f expected actual).1 = true := by
  rw [checkErrors_fst]
  simp only [checkPairs]
  refine zipLongestFill_all_of_pointwise sentinel expected _ (by simpa using hlen) ?_
  intro i h1 h2
  have h2a : i < actual.length := by simpa using h2
  simpa [List.getElem_map] using hmatch i h1 h2a

/-- Witness for claim C2 at a concrete matching pair. -/
theorem claim_C2_witness :
    (checkErrors "4.4_firrtl_add_ops_per_module.ipynb" ["FirrtlInternalException"]
      [⟨"FirrtlInternalException raised during compile", []⟩]).1 = true :=
  claim_C2 "4.4_firrtl_add_ops_per_module.ipynb" ["FirrtlInternalException"]
    [⟨"FirrtlInternalException raised during compile", []⟩] (by decide) (by decide)

/-- Claim C3: a position of `check_errors` matches exactly when the expected
signature occurs within the first 100 characters of the corresponding actual
error's first traceback line; in particular an occurrence lying only beyond
character 100 of the full line makes the right-hand side false, so the
position does not match. -/
theorem claim_C3 (f e : String) (x : ErrorOutput) :
    (checkErrors f [e] [x]).1 = strContains (strTake (firstTracebackLine x) 100) e := by
  rw [checkErrors_fst]
  simp [checkPairs, zipLongestFill, padLeftover]

/-- Claim C9: every expected error signature stored in the compiled-in
expectation catalog has length at most 100 characters, so truncating actual
signatures to 100 characters can never by itself make a catalog entry
unmatchable. -/
theorem claim_C9 :
    (notebooks.all (fun p => p.2.all (fun s => s.length ≤ 100))) = true := by
  decide

/-- Claim C10: an empty expected signature is a substring of every string,
the sentinel included, so `check_errors` counts that position as a match
regardless of the actual entry; in particular with expected `[""]` and no
actual errors the lengths differ with `len(expected) > len(actual)` and yet
the comparison returns true. -/
theorem claim_C10 :
    (∀ a : String, strContains a "" = true) ∧
    ([""].length > ([] : List ErrorOutput).length ∧
      (checkErrors "f.ipynb" [""] []).1 = true) := by
  refine ⟨?_, by decide, by decide⟩
  intro a
  show charsContain [] a.toList = true
  cases hl : a.toList with
  | nil => rfl
  | cons c cs => rfl

/-- Claim C4: after any `_notebook_run` call — whether it returns normally or
the execution service or the read-back raised — the temporary scratch file
allocated for the run no longer exists and the working directory equals its
value from before the call; the `finally` block performs both cleanups on
every path. -/
theorem claim_C4 (path : String) (env : NbEnv) (s : SysState) :
    (notebookRun path env s).2.cwd = s.cwd ∧
    env.tempName ∉ (notebookRun path env s).2.files := by
  constructor
  · rfl
  · simp [notebookRun, List.mem_filter]

theorem batchRun_append (env : String → ExecOutcome) (pre rest : List String)
    (h : (batchRun env pre).2 = BatchOutcome.passed) :
    batchRun env (pre ++ rest) =
      ((batchRun env pre).1 ++ (batchRun env rest).1, (batchRun env rest).2) := by
  induction pre with
  | nil => simp [batchRun]
  | cons n pre2 ih =>
    cases hl : lookupCatalog n with
    | none =>
      exfalso
      have hb : batchRun env (n :: pre2) = ([], BatchOutcome.keyError n) := by
        simp [batchRun, hl]
      rw [hb] at h
      simp at h
    | some expected =>
      cases he : env n with
      | raises =>
        exfalso
        have hb : batchRun env (n :: pre2) = ([Event.exec n], BatchOutcome.execError n) := by
          simp [batchRun, hl, he]
        rw [hb] at h
        simp at h
      | runs errs =>
        cases hc : (checkErrors n expected errs).1 with
        | false =>
          exfalso
          have hb : batchRun env (n :: pre2) =
              ([Event.exec n], BatchOutcome.assertFailed n (checkErrors n expected errs).2) := by
            simp [batchRun, hl, he, hc]
          rw [hb] at h
          simp at h
        | true =>
          have hstep : batchRun env (n :: pre2) =
              (Event.exec n :: (batchRun env pre2).1, (batchRun env pre2).2) := by
            simp [batchRun, hl, he, hc]
          have hstep3 : batchRun env (n :: (pre2 ++ rest)) =
              (Event.exec n :: (batchRun env (pre2 ++ rest)).1,
                (batchRun env (pre2 ++ rest)).2) := by
            simp [batchRun, hl, he, hc]
          have hpre2 : (batchRun env pre2).2 = BatchOutcome.passed := by
            rw [hstep] at h
            exact h
          show batchRun env (n :: (pre2 ++ rest)) = _
          rw [hstep3, ih hpre2, hstep]
          simp

/-- Claim C5: a notebook identifier absent from the expectation catalog is
never executed by the batch runner (no `_notebook_run` invocation, hence no
execution-service call and no temp file for it) and the run fails; when the
notebooks before it all passed, the failure is precisely the `KeyError` from
the catalog lookup, raised before execution of that notebook is attempted. -/
theorem claim_C5 (env : String → ExecOutcome) (names : List String) (n : String)
    (hmem : n ∈ names) (hlook : lookupCatalog n = none) :
    (Event.exec n ∉ (batchRun env names).1 ∧
      (batchRun env names).2 ≠ BatchOutcome.passed) ∧
    ∀ pre post, names = pre ++ n :: post →
      (batchRun env pre).2 = BatchOutcome.passed →
      (batchRun env names).2 = BatchOutcome.keyError n := by
  constructor
  · induction names with
    | nil => cases hmem
    | cons m rest ih =>
      by_cases hmn : m = n
      · subst hmn
        have hb : batchRun env (m :: rest) = ([], BatchOutcome.keyError m) := by
          simp [batchRun, hlook]
        rw [hb]
        exact ⟨by simp, by simp⟩
      · have hmem2 : n ∈ rest := by
          rcases List.mem_cons.mp hmem with h | h
          · exact absurd h.symm hmn
          · exact h
        cases hl : lookupCatalog m with
        | none =>
          have hb : batchRun env (m :: rest) = ([], BatchOutcome.keyError m) := by
            simp [batchRun, hl]
          rw [hb]
          exact ⟨by simp, by simp⟩
        | some expected =>
          cases he : env m with
          | raises =>
            have hb : batchRun env (m :: rest) =
                ([Event.exec m], BatchOutcome.execError m) := by
              simp [batchRun, hl, he]
            rw [hb]
            constructor
            · intro hcontra
              simp at hcontra
              exact hmn hcontra.symm
            · simp
          | runs errs =>
            cases hc : (checkErrors m expected errs).1 with
            | false =>
              have hb : batchRun env (m :: rest) =
                  ([Event.exec m],
                    BatchOutcome.assertFailed m (checkErrors m expected errs).2) := by
                simp [batchRun, hl, he, hc]
              rw [hb]
              constructor
              · intro hcontra
                simp at hcontra
                exact hmn hcontra.symm
              · simp
            | true =>
              have hb : batchRun env (m :: rest) =
                  (Event.exec m :: (batchRun env rest).1, (batchRun env rest).2) := by
                simp [batchRun, hl, he, hc]
              rw [hb]
              rcases ih hmem2 with ⟨ih1, ih2⟩
              constructor
              · intro hcontra
                rcases List.mem_cons.mp hcontra with h | h
                · simp at h
                  exact hmn h.symm
                · exact ih1 h
              · exact ih2
  · intro pre post hsplit hpre
    subst hsplit
    rw [batchRun_append env pre _ hpre]
    simp [batchRun, hlook]

/-- Witness for claim C5: requesting `nonexistent.ipynb` never executes it
and the batch run does not pass. -/
theorem claim_C5_witness :
    Event.exec "nonexistent.ipynb" ∉ (batchRun passEnv ["nonexistent.ipynb"]).1 ∧
    (batchRun passEnv ["nonexistent.ipynb"]).2 ≠ BatchOutcome.passed :=
  (claim_C5 passEnv ["nonexistent.ipynb"] "nonexistent.ipynb" (by simp) (by decide)).1

/-- Claim C6: when the notebooks before `n` all passed and the comparison for
`n` fails, the batch run performs exactly the executions of the earlier
notebooks plus `n` itself and aborts with the assertion failure — no notebook
after `n` in the requested sequence is executed — and the diagnostics carried
by the abort contain a line for every mismatched position of `n`'s
comparison, not only the first. -/
theorem claim_C6 (env : String → ExecOutcome) (pre post : List String) (n : String)
    (expected : List String) (errs : List ErrorOutput)
    (hpre : (batchRun env pre).2 = BatchOutcome.passed)
    (hlook : lookupCatalog n = some expected)
    (hrun : env n = ExecOutcome.runs errs)
    (hfail : (checkErrors n expected errs).1 = false) :
    batchRun env (pre ++ n :: post) =
      ((batchRun env pre).1 ++ [Event.exec n],
        BatchOutcome.assertFailed n (checkErrors n expected errs).2) ∧
    ∀ j (hj : j < (checkPairs expected errs).length),
      strContains (checkPairs expected errs)[j].2 (checkPairs expected errs)[j].1 = false →
      Diag.mk j (checkPairs expected errs)[j].1
          (strTake (checkPairs expected errs)[j].2 100) ∈
        (checkErrors n expected errs).2 := by
  constructor
  · rw [batchRun_append env pre _ hpre]
    have hb : batchRun env (n :: post) =
        ([Event.exec n], BatchOutcome.assertFailed n (checkErrors n expected errs).2) := by
      simp [batchRun, hlook, hrun, hfail]
    rw [hb]
  · intro j hj hf
    have hd := checkErrorsLoop_mem_diag (checkPairs expected errs) 0 j hj hf
    simpa [checkErrors] using hd

/-- Witness for claim C6: the first catalog notebook expects no errors; one
actual error fails the comparison and aborts the batch immediately. -/
theorem claim_C6_witness :
    batchRun failEnv ([] ++ "1_intro_to_scala.ipynb" :: []) =
      ((batchRun failEnv []).1 ++ [Event.exec "1_intro_to_scala.ipynb"],
        BatchOutcome.assertFailed "1_intro_to_scala.ipynb"
          (checkErrors "1_intro_to_scala.ipynb" [] [⟨"boom", []⟩]).2) :=
  (claim_C6 failEnv [] [] "1_intro_to_scala.ipynb" [] [⟨"boom", []⟩]
    (by decide) (by decide) rfl (by decide)).1

/-- Claim C7 as frozen is false on the code: `--help` is an argument, yet the
runner processes no notebook at all for it (it prints usage and exits 0). -/
theorem claim_C7_cex : notebooksToRun ["--help"] ≠ ["--help"] := by decide

/-- Claim C7 (amended): with zero arguments the batch runner processes every
key of the expectation catalog exactly once, in lexicographically sorted
order (the key list is duplicate-free and the processed list is a sorted
permutation of it); with one or more arguments whose first is not `--help`
it processes exactly the given identifiers in the order supplied; a leading
`--help` instead prints usage and exits before processing any notebook. -/
theorem claim_C7 :
    List.Sorted (fun a b : String => a ≤ b) (notebooksToRun []) ∧
    List.Perm (notebooksToRun []) (notebooks.map (fun p => p.1)) ∧
    (notebooks.map (fun p => p.1)).Nodup ∧
    ∀ (a : String) (args : List String), a ≠ "--help" →
      notebooksToRun (a :: args) = a :: args := by
  refine ⟨?_, ?_, by decide, ?_⟩
  · show List.Sorted _ (List.insertionSort _ _)
    exact List.sorted_insertionSort _ _
  · show List.Perm (List.insertionSort _ _) _
    exact List.perm_insertionSort _ _
  · intro a args h
    simp [notebooksToRun, h]

/-- Witness for claim C7: a single explicit notebook argument is processed
as given. -/
theorem claim_C7_witness :
    notebooksToRun ["4.4_firrtl_add_ops_per_module.ipynb"] =
      ["4.4_firrtl_add_ops_per_module.ipynb"] :=
  claim_C7.2.2.2 "4.4_firrtl_add_ops_per_module.ipynb" [] (by decide)

/-- Claim C8: the single-notebook executor exits 1 with a usage message and
no execution attempt when the notebook argument is missing, exits 1 when the
execution-service invocation fails, and exits 0 when it succeeds (cell errors
are tolerated by `--allow-errors` and do not fail the invocation). -/
theorem claim_C8 (svc : String → Bool) (nb : String) (rest : List String) :
    runNotebookMain [] svc = ⟨1, false, true⟩ ∧
    (svc nb = false → runNotebookMain (nb :: rest) svc = ⟨1, true, false⟩) ∧
    (svc nb = true → runNotebookMain (nb :: rest) svc = ⟨0, true, false⟩) := by
  refine ⟨rfl, ?_, ?_⟩ <;> intro h <;> simp [runNotebookMain, h]

/-- Witness for claim C8: concrete succeeding and failing execution
services. -/
theorem claim_C8_witness :
    runNotebookMain ["1_intro_to_scala.ipynb"] (fun _ => true) = ⟨0, true, false⟩ ∧
    runNotebookMain ["1_intro_to_scala.ipynb"] (fun _ => false) = ⟨1, true, false⟩ :=
  ⟨(claim_C8 (fun _ => true) "1_intro_to_scala.ipynb" []).2.2 rfl,
    (claim_C8 (fun _ => false) "1_intro_to_scala.ipynb" []).2.1 rfl⟩

end ChiselBootcamp
